import Mathlib

/-
Formal model of the upsc front-end authentication layer.

Shallow embedding of:
  src/src/contexts/AuthContext.tsx        (AuthProvider: fetchUserProfile,
    the bootstrap path of the auth effect, handleAuthStateChange,
    signIn, signUp, signOut, isAdmin, isStudent)
  src/unnamed/part_000                    (ProtectedRoute)
  src/src/components/ui/ConnectionStatus.tsx

External-service behaviour (supabase responses, network outcomes, the
browser online flag) is supplied as explicit oracle inputs to each
operation, so each Lean function is the deterministic residue of the
source function once the outcome of every awaited external call is fixed.
-/

namespace Upsc

/-- Role column of the profiles table: admin or student. -/
inductive Role
  | admin
  | student
deriving DecidableEq

/-- A row of the profiles table (Database public Tables profiles Row). -/
structure Profile where
  id : String
  email : String
  full_name : Option String
  role : Role
deriving DecidableEq

/-- A supabase auth user: identity record with id, email and the
full_name entry of user_metadata. -/
structure User where
  id : String
  email : Option String
  user_metadata_full_name : Option String
deriving DecidableEq

/-- A supabase session; in the supabase types a session always carries
its user. -/
structure Session where
  user : User
deriving DecidableEq

/-- The React state of AuthProvider: the five useState cells
user, profile, session, loading, initialized. -/
structure AuthState where
  user : Option User
  profile : Option Profile
  session : Option Session
  loading : Bool
  initialized : Bool
deriving DecidableEq

/-- The initial AuthProvider state: useState(null) three times,
useState(true) for loading, useState(false) for initialized. -/
def initState : AuthState :=
  { user := none
    profile := none
    session := none
    loading := true
    initialized := false }

/-- The AuthState invariant of the spec data model:
profile nonnull implies user nonnull (equivalently, user null implies
profile null). -/
def invariantHolds (s : AuthState) : Bool :=
  s.profile.isNone || s.user.isSome

/-- pat matches the front of l character by character. -/
def leadMatch : List Char → List Char → Bool
  | [], _ => true
  | _ :: _, [] => false
  | a :: as, b :: bs => a == b && leadMatch as bs

/-- pat occurs somewhere inside l. -/
def subMatch (pat : List Char) : List Char → Bool
  | [] => leadMatch pat []
  | c :: cs => leadMatch pat (c :: cs) || subMatch pat cs

/-- JavaScript String.includes: pat occurs as a contiguous substring
of s. -/
def strIncludes (s pat : String) : Bool :=
  subMatch pat.toList s.toList

/-- Outcome of the race between the profiles select-single query and the
5000ms timeout inside fetchUserProfile: the row, an error with a code
(as in the single() error path), or the timeout rejection (caught by the
surrounding try). -/
inductive SelectOutcome
  | found (p : Profile)
  | errCode (code : String)
  | raceTimeout
deriving DecidableEq

/-- The default profile built in fetchUserProfile when the row is
missing: id is the requested userId, email is the auth user email or
empty string, full_name is the user_metadata full name put through the
JS falsy coercion of the source (full_name or-else null), which sends
both a missing and an empty-string metadata name to null, and role is
student. -/
def defaultProfile (userId : String) (u : User) : Profile :=
  { id := userId
    email := u.email.getD ""
    full_name :=
      match u.user_metadata_full_name with
      | some s => if s = "" then none else some s
      | none => none
    role := Role.student }

/-- fetchUserProfile from AuthContext.tsx. Oracle inputs: the outcome of
the select race, the user returned by supabase.auth.getUser, and whether
the fallback insert reported an error. Returns the value the function
returns together with the list of rows actually inserted into the
profiles table during the call. -/
def fetchUserProfile (userId : String) (sel : SelectOutcome)
    (getUserResp : Option User) (insertError : Bool) :
    Option Profile × List Profile :=
  match sel with
  | SelectOutcome.found p => (some p, [])
  | SelectOutcome.raceTimeout => (none, [])
  | SelectOutcome.errCode code =>
    if code = "PGRST116" then
      match getUserResp with
      | some u =>
        if insertError then (none, [])
        else (some (defaultProfile userId u), [defaultProfile userId u])
      | none => (none, [])
    else (none, [])

/-- Outcome of supabase.auth.getSession during the bootstrap path of the
auth effect: the 8000ms backstop timer fires first (getSession never
resolves in time), getSession resolves with an error, getSession throws,
or getSession resolves with an optional session. -/
inductive GetSessionOutcome
  | timeout
  | errResult
  | thrown
  | ok (s : Option Session)
deriving DecidableEq

/-- The bootstrap path of the auth effect in AuthContext.tsx (the async
function that guards on initialized, races getSession against the 8000ms
backstop, populates user and session on success, triggers the profile
fetch, and in its finally block sets loading to false and initialized to
true). fetchResult is the value the inner profile fetch produced (none
also covers the inner catch). The component is mounted throughout. -/
def initAuth (out : GetSessionOutcome) (fetchResult : Option Profile)
    (s : AuthState) : AuthState :=
  if s.initialized then s
  else
    match out with
    | GetSessionOutcome.timeout =>
      { s with loading := false, initialized := true }
    | GetSessionOutcome.errResult =>
      { s with
        user := none
        profile := none
        session := none
        loading := false
        initialized := true }
    | GetSessionOutcome.thrown =>
      { s with
        user := none
        profile := none
        session := none
        loading := false
        initialized := true }
    | GetSessionOutcome.ok none =>
      { s with
        user := none
        profile := none
        session := none
        loading := false
        initialized := true }
    | GetSessionOutcome.ok (some sess) =>
      { s with
        session := some sess
        user := some sess.user
        profile := fetchResult
        loading := false
        initialized := true }

/-- handleAuthStateChange from AuthContext.tsx, run to completion: sets
session and user from the new session, then refetches the profile unless
the event is TOKEN_REFRESHED, and clears the profile when the session
has no user. fetchResult is the value the profile fetch produced (none
also covers the catch branch). The component is mounted throughout. -/
def handleAuthStateChange (event : String) (newSession : Option Session)
    (fetchResult : Option Profile) (s : AuthState) : AuthState :=
  let s1 := { s with
                session := newSession
                user := newSession.map Session.user }
  match newSession with
  | some _ =>
    if event = "TOKEN_REFRESHED" then s1
    else { s1 with profile := fetchResult }
  | none => { s1 with profile := none }

/-- Outcome of the awaited supabase.auth.signOut call: resolves with no
error, resolves with an error object, or throws. -/
inductive RemoteResult
  | ok
  | errReturned (msg : String)
  | thrown
deriving DecidableEq

/-- signOut from AuthContext.tsx: awaits the remote sign-out, logs the
error if one is reported, then clears user, profile and session. When
the awaited call throws, control jumps to the catch block and the three
clearing calls are skipped. -/
def signOut (remote : RemoteResult) (s : AuthState) : AuthState :=
  match remote with
  | RemoteResult.ok =>
    { s with user := none, profile := none, session := none }
  | RemoteResult.errReturned _ =>
    { s with user := none, profile := none, session := none }
  | RemoteResult.thrown => s

/-- Response of supabase.auth.signInWithPassword: an error object with a
message, a resolved value whose user and session fields may be null, or
a thrown exception. -/
inductive SignInResponse
  | apiError (message : String)
  | ok (hasUser : Bool) (hasSession : Bool)
  | thrown
deriving DecidableEq

/-- The value signIn returns, by source branch: no error; the
configuration-missing error; the fixed transport error built when the
backend error message mentions fetch; the backend error passed through
unchanged (this is the branch wrong credentials take); the
authentication-failed error when user or session is missing; or the
caught thrown value passed through. -/
inductive SignInResult
  | noError
  | errConfigMissing (msg : String)
  | errTransport (msg : String)
  | errApi (msg : String)
  | errAuthFailed (msg : String)
  | errThrown
deriving DecidableEq

/-- signIn from AuthContext.tsx. configured models the presence of both
supabase environment variables; resp is the oracle for the
signInWithPassword call. -/
def signIn (configured : Bool) (resp : SignInResponse) : SignInResult :=
  if !configured then
    SignInResult.errConfigMissing
      "Database connection not configured. Please check environment variables."
  else
    match resp with
    | SignInResponse.apiError m =>
      if strIncludes m "Failed to fetch" || strIncludes m "fetch" then
        SignInResult.errTransport
          "Unable to connect to the database. Please check your internet connection and try again."
      else SignInResult.errApi m
    | SignInResponse.ok hasUser hasSession =>
      if hasUser && hasSession then SignInResult.noError
      else SignInResult.errAuthFailed "Authentication failed"
    | SignInResponse.thrown => SignInResult.errThrown

/-- Response of supabase.auth.signUp: an error, a resolved value with a
created user, a resolved value without a user, or a thrown exception. -/
inductive SignUpResponse
  | apiError (msg : String)
  | okUser (u : User)
  | okNoUser
  | thrown
deriving DecidableEq

/-- Backend calls a code path can issue. The source of signUp contains
no account-deletion call at all; the constructor exists so that absence
of rollback is expressible. -/
inductive BackendCall
  | authSignUpCall
  | profileInsertCall (row : Profile)
  | accountDeleteCall
deriving DecidableEq

/-- The value signUp returns, by source branch. -/
inductive SignUpResult
  | noError
  | errApi (msg : String)
  | errProfileInsert (msg : String)
  | errThrown
deriving DecidableEq

/-- signUp from AuthContext.tsx: creates the external account, then, if
a user was returned, inserts the profile row with the requested role and
surfaces the insert error if any. Returns the result together with the
list of backend calls issued. -/
def signUp (email _password fullName : String) (role : Role)
    (resp : SignUpResponse) (insertError : Option String) :
    SignUpResult × List BackendCall :=
  match resp with
  | SignUpResponse.apiError m =>
    (SignUpResult.errApi m, [BackendCall.authSignUpCall])
  | SignUpResponse.thrown =>
    (SignUpResult.errThrown, [BackendCall.authSignUpCall])
  | SignUpResponse.okNoUser =>
    (SignUpResult.noError, [BackendCall.authSignUpCall])
  | SignUpResponse.okUser u =>
    let row : Profile :=
      { id := u.id
        email := email.trim
        full_name := some fullName
        role := role }
    match insertError with
    | some m =>
      (SignUpResult.errProfileInsert m,
       [BackendCall.authSignUpCall, BackendCall.profileInsertCall row])
    | none =>
      (SignUpResult.noError,
       [BackendCall.authSignUpCall, BackendCall.profileInsertCall row])

/-- The derived isAdmin flag exposed to the UI layer:
profile role equals admin, with optional chaining on a null profile. -/
def isAdmin (profile : Option Profile) : Bool :=
  match profile with
  | some p => decide (p.role = Role.admin)
  | none => false

/-- The derived isStudent flag exposed to the UI layer:
profile role equals student, with optional chaining on a null profile. -/
def isStudent (profile : Option Profile) : Bool :=
  match profile with
  | some p => decide (p.role = Role.student)
  | none => false

/-- What one render of ProtectedRoute produces: the loading placeholder,
a Navigate redirect to a route, the profile-setup screen, or the guarded
children. -/
inductive RouteRender
  | loadingScreen
  | navigate (route : String)
  | profileSetupScreen
  | children
deriving DecidableEq

/-- ProtectedRoute from src/unnamed/part_000: loading placeholder while
loading; redirect to /login without a user; setup screen with a user but
no profile; redirect to /dashboard when admin is required but the role
is not admin; redirect to /admin when student is required but the role
is not student; otherwise the children. -/
def ProtectedRoute (requireAdmin requireStudent : Bool) (loading : Bool)
    (user : Option User) (profile : Option Profile) : RouteRender :=
  if loading then RouteRender.loadingScreen
  else
    match user with
    | none => RouteRender.navigate "/login"
    | some _ =>
      match profile with
      | none => RouteRender.profileSetupScreen
      | some p =>
        if requireAdmin && decide (p.role ≠ Role.admin) then
          RouteRender.navigate "/dashboard"
        else if requireStudent && decide (p.role ≠ Role.student) then
          RouteRender.navigate "/admin"
        else RouteRender.children

/-- The React state of ConnectionStatus: the isOnline and
showOfflineMessage useState cells. -/
structure ConnState where
  isOnline : Bool
  showOfflineMessage : Bool
deriving DecidableEq

/-- Initial ConnectionStatus state: isOnline starts from
navigator.onLine, showOfflineMessage starts false. -/
def connInit (navigatorOnLine : Bool) : ConnState :=
  { isOnline := navigatorOnLine, showOfflineMessage := false }

/-- A browser connectivity event delivered to the window listeners. -/
inductive ConnEvent
  | online
  | offline
deriving DecidableEq

/-- The online and offline window-event handlers of ConnectionStatus. -/
def handleConnEvent : ConnEvent → ConnState → ConnState
  | ConnEvent.online, _ => { isOnline := true, showOfflineMessage := false }
  | ConnEvent.offline, _ => { isOnline := false, showOfflineMessage := true }

/-- Deliver a sequence of connectivity events in order. -/
def runConnEvents (evs : List ConnEvent) (s : ConnState) : ConnState :=
  evs.foldl (fun st e => handleConnEvent e st) s

/-- What one render of ConnectionStatus produces. -/
inductive Banner
  | configError
  | offlineWarning
  | noBanner
deriving DecidableEq

/-- The render of ConnectionStatus: the configuration-error banner when
either supabase environment variable is missing; otherwise the offline
banner exactly when isOnline is false and showOfflineMessage is true;
otherwise nothing. -/
def connRender (supabaseConfigured : Bool) (s : ConnState) : Banner :=
  if !supabaseConfigured then Banner.configError
  else if !s.isOnline && s.showOfflineMessage then Banner.offlineWarning
  else Banner.noBanner

/-- An event processed by the AuthProvider, with each handler run
atomically to completion (its awaited profile fetch resolved before the
next event is handled): the bootstrap, an auth-state-change
notification, or a signOut call. -/
inductive Ev
  | boot (out : GetSessionOutcome) (fetchResult : Option Profile)
  | authChange (event : String) (newSession : Option Session)
      (fetchResult : Option Profile)
  | signOutEv (remote : RemoteResult)
deriving DecidableEq

/-- Apply one atomically processed event to the AuthProvider state. -/
def applyEv : Ev → AuthState → AuthState
  | Ev.boot out fr, s => initAuth out fr s
  | Ev.authChange e ns fr, s => handleAuthStateChange e ns fr s
  | Ev.signOutEv r, s => signOut r s

/-- Apply a sequence of atomically processed events in order. -/
def runEvs (evs : List Ev) (s : AuthState) : AuthState :=
  evs.foldl (fun st e => applyEv e st) s

/-- A non-bootstrap event: an auth-state-change notification or a
signOut call. These are the events that can surround the bootstrap in an
application lifetime. -/
inductive PostEv
  | authChange (event : String) (newSession : Option Session)
      (fetchResult : Option Profile)
  | signOutEv (remote : RemoteResult)
deriving DecidableEq

/-- View a non-bootstrap event as an event. -/
def PostEv.toEv : PostEv → Ev
  | PostEv.authChange e ns fr => Ev.authChange e ns fr
  | PostEv.signOutEv r => Ev.signOutEv r

/-- Apply one non-bootstrap event. -/
def stepPost (s : AuthState) (e : PostEv) : AuthState :=
  applyEv e.toEv s

/-- The state after a sequence of non-bootstrap events. -/
def endOf (s : AuthState) (l : List PostEv) : AuthState :=
  l.foldl stepPost s

/-- The list of states visited while a sequence of non-bootstrap events
is processed, the starting state included. -/
def traceFrom (s : AuthState) : List PostEv → List AuthState
  | [] => [s]
  | e :: es => s :: traceFrom (stepPost s e) es

/-- The states of one application lifetime: the initial state, the
states after each event delivered before the bootstrap completes, then
the states from the bootstrap completion on, one per later event. -/
def lifeStates (pre : List PostEv) (out : GetSessionOutcome)
    (fetchResult : Option Profile) (post : List PostEv) : List AuthState :=
  traceFrom initState pre ++
    traceFrom (initAuth out fetchResult (endOf initState pre)) post

/-- Number of true-to-false transitions between adjacent entries. -/
def countTF : List Bool → Nat
  | a :: b :: rest => (if a && !b then 1 else 0) + countTF (b :: rest)
  | _ => 0

/-- Number of false-to-true transitions between adjacent entries. -/
def countFT : List Bool → Nat
  | a :: b :: rest => (if !a && b then 1 else 0) + countFT (b :: rest)
  | _ => 0

/-- State of the fine-grained model of handleAuthStateChange, in which
the awaited fetchUserProfile call is a suspension point of the JS event
loop: the provider state plus the number of profile fetches in flight. -/
structure MicroState where
  st : AuthState
  pendingFetch : Nat
deriving DecidableEq

/-- One scheduler step of the fine-grained model, each mirroring a
contiguous synchronous segment of handleAuthStateChange:
changeStart is the segment of a with-user event up to the await at the
fetchUserProfile call (setSession, setUser, and, unless the event is
TOKEN_REFRESHED, starting the fetch); changeNoUser is the whole handling
of a no-user event, which has no suspension point (setSession, setUser,
setProfile null); fetchDone is the continuation after the await
(setProfile with the resolved value), enabled only while a fetch is in
flight. The component stays mounted. -/
inductive MicroEv
  | changeStart (event : String) (sess : Session)
  | changeNoUser (event : String)
  | fetchDone (res : Option Profile)
deriving DecidableEq

/-- Apply one scheduler step of the fine-grained model. -/
def microStep (e : MicroEv) (m : MicroState) : MicroState :=
  match e with
  | MicroEv.changeStart event sess =>
    let st1 := { m.st with
                   session := some sess
                   user := some sess.user }
    if event = "TOKEN_REFRESHED" then { m with st := st1 }
    else { st := st1, pendingFetch := m.pendingFetch + 1 }
  | MicroEv.changeNoUser _ =>
    { m with st := { m.st with
                       session := none
                       user := none
                       profile := none } }
  | MicroEv.fetchDone res =>
    match m.pendingFetch with
    | 0 => m
    | n + 1 => { st := { m.st with profile := res }, pendingFetch := n }

/-- Run the fine-grained model over a schedule. -/
def microRun (evs : List MicroEv) (m : MicroState) : MicroState :=
  evs.foldl (fun acc e => microStep e acc) m

/-- A concrete auth user. -/
def cUser : User :=
  { id := "user-1"
    email := some "a@example.com"
    user_metadata_full_name := none }

/-- A concrete session for cUser. -/
def cSess : Session := { user := cUser }

/-- A concrete profile row for cUser. -/
def cProfile : Profile :=
  { id := "user-1"
    email := "a@example.com"
    full_name := none
    role := Role.student }

/-- A concrete signed-in provider state. -/
def cSignedInState : AuthState :=
  { user := some cUser
    profile := some cProfile
    session := some cSess
    loading := false
    initialized := true }

/-- The fine-grained model started just after a bootstrap that found no
session: all fields null, loading over, no fetch in flight. -/
def cMicroStart : MicroState :=
  { st := { user := none
            profile := none
            session := none
            loading := false
            initialized := true }
    pendingFetch := 0 }

/-- The state reached by the schedule: a SIGNED_IN event for cSess runs
up to its await, a SIGNED_OUT event with no session then runs to
completion, and finally the suspended fetch resolves with cProfile and
its continuation stores it. -/
def cRaceFinal : AuthState :=
  (microRun
    [MicroEv.changeStart "SIGNED_IN" cSess,
     MicroEv.changeNoUser "SIGNED_OUT",
     MicroEv.fetchDone (some cProfile)] cMicroStart).st

/-- One atomically processed event preserves the AuthState invariant. -/
theorem applyEv_invariant (e : Ev) (s : AuthState)
    (h : invariantHolds s = true) : invariantHolds (applyEv e s) = true := by
  cases e with
  | boot out fr =>
    simp only [applyEv, initAuth]
    split
    · exact h
    · cases out with
      | timeout => simpa [invariantHolds] using h
      | errResult => simp [invariantHolds]
      | thrown => simp [invariantHolds]
      | ok os => cases os <;> simp [invariantHolds]
  | authChange ev ns fr =>
    cases ns with
    | none => simp [applyEv, handleAuthStateChange, invariantHolds]
    | some sess =>
      by_cases hev : ev = "TOKEN_REFRESHED" <;>
        simp [applyEv, handleAuthStateChange, hev, invariantHolds]
  | signOutEv r =>
    cases r with
    | ok => simp [applyEv, signOut, invariantHolds]
    | errReturned m => simp [applyEv, signOut, invariantHolds]
    | thrown => simpa [applyEv, signOut] using h

/-- A sequence of atomically processed events preserves the AuthState
invariant. -/
theorem runEvs_invariant (evs : List Ev) (s : AuthState)
    (h : invariantHolds s = true) : invariantHolds (runEvs evs s) = true := by
  induction evs generalizing s with
  | nil => simpa [runEvs] using h
  | cons e es ih =>
    simp only [runEvs, List.foldl_cons]
    exact ih (applyEv e s) (applyEv_invariant e s h)

/-- A non-bootstrap event changes neither loading nor initialized. -/
theorem stepPost_fields (s : AuthState) (e : PostEv) :
    (stepPost s e).loading = s.loading
    ∧ (stepPost s e).initialized = s.initialized := by
  cases e with
  | authChange ev ns fr =>
    cases ns with
    | none => simp [stepPost, PostEv.toEv, applyEv, handleAuthStateChange]
    | some sess =>
      by_cases hev : ev = "TOKEN_REFRESHED" <;>
        simp [stepPost, PostEv.toEv, applyEv, handleAuthStateChange, hev]
  | signOutEv r =>
    cases r <;> simp [stepPost, PostEv.toEv, applyEv, signOut]

/-- Along a sequence of non-bootstrap events the loading flag is
constant. -/
theorem traceFrom_loading (l : List PostEv) (s : AuthState) :
    (traceFrom s l).map AuthState.loading
      = List.replicate (l.length + 1) s.loading := by
  induction l generalizing s with
  | nil => simp [traceFrom]
  | cons e es ih =>
    rw [traceFrom, List.map_cons, ih (stepPost s e), (stepPost_fields s e).1]
    simp [List.replicate_succ]

/-- The end state of a sequence of non-bootstrap events keeps the
loading and initialized flags of the start state. -/
theorem endOf_fields : ∀ (l : List PostEv) (s : AuthState),
    (endOf s l).loading = s.loading ∧ (endOf s l).initialized = s.initialized
  | [], _ => ⟨rfl, rfl⟩
  | e :: es, s => by
    have h := stepPost_fields s e
    have h2 := endOf_fields es (stepPost s e)
    exact ⟨h2.1.trans h.1, h2.2.trans h.2⟩

/-- When the guard has not yet tripped, every bootstrap outcome ends
with loading false. -/
theorem initAuth_loading (out : GetSessionOutcome) (fr : Option Profile)
    (s : AuthState) (h : s.initialized = false) :
    (initAuth out fr s).loading = false := by
  cases out with
  | timeout => simp [initAuth, h]
  | errResult => simp [initAuth, h]
  | thrown => simp [initAuth, h]
  | ok os => cases os <;> simp [initAuth, h]

/-- An all-false run has no true-to-false transition. -/
theorem countTF_replicate_false :
    ∀ n, countTF (List.replicate n false) = 0 := by
  intro n
  induction n with
  | zero => rfl
  | succ k ih =>
    cases k with
    | zero => rfl
    | succ m => simpa [List.replicate_succ, countTF] using ih

/-- An all-false run has no false-to-true transition. -/
theorem countFT_replicate_false :
    ∀ n, countFT (List.replicate n false) = 0 := by
  intro n
  induction n with
  | zero => rfl
  | succ k ih =>
    cases k with
    | zero => rfl
    | succ m => simpa [List.replicate_succ, countFT] using ih

/-- A true block followed by a false block has exactly one true-to-false
transition. -/
theorem countTF_true_false (m n : Nat) :
    countTF (List.replicate (m + 1) true ++ List.replicate (n + 1) false)
      = 1 := by
  induction m with
  | zero =>
    simp only [List.replicate_succ, List.replicate, List.nil_append,
      List.cons_append, countTF]
    simpa [List.replicate_succ, countTF] using countTF_replicate_false (n + 1)
  | succ k ih =>
    simpa [List.replicate_succ, List.cons_append, countTF] using ih

/-- A true block followed by a false block has no false-to-true
transition. -/
theorem countFT_true_false (m n : Nat) :
    countFT (List.replicate (m + 1) true ++ List.replicate (n + 1) false)
      = 0 := by
  induction m with
  | zero =>
    simp only [List.replicate_succ, List.replicate, List.nil_append,
      List.cons_append, countFT]
    simpa [List.replicate_succ, countFT] using countFT_replicate_false (n + 1)
  | succ k ih =>
    simpa [List.replicate_succ, List.cons_append, countFT] using ih

/-- Claim C1, counterexample. The claim that the invariant (profile
nonnull implies user nonnull) holds after every update fails once the
await inside handleAuthStateChange is taken into account: a SIGNED_IN
handler that has suspended at its profile fetch, a SIGNED_OUT handler
that runs to completion during that suspension, and the resumed fetch
continuation leave the provider with a null user and a nonnull
profile. -/
theorem c1_counterexample :
    cRaceFinal.user = none ∧ cRaceFinal.profile = some cProfile
    ∧ invariantHolds cRaceFinal = false :=
  ⟨rfl, rfl, rfl⟩

/-- Claim C1, amended: for every sequence of bootstrap and
auth-state-change events in which each handler (its awaited profile
fetch included) runs to completion before the next event is handled,
the AuthState invariant holds after each update: a nonnull profile
implies a nonnull user, and a null user implies a null profile. -/
theorem c1_invariant_atomic (evs : List Ev) :
    invariantHolds (runEvs evs initState) = true :=
  runEvs_invariant evs initState rfl

/-- Claim C1, witness: a bootstrap that finds a session followed by a
sign-out notification, each processed to completion. -/
theorem c1_witness :
    invariantHolds (runEvs
      [Ev.boot (GetSessionOutcome.ok (some cSess)) (some cProfile),
       Ev.authChange "SIGNED_OUT" none none] initState) = true :=
  c1_invariant_atomic
    [Ev.boot (GetSessionOutcome.ok (some cSess)) (some cProfile),
     Ev.authChange "SIGNED_OUT" none none]

/-- Claim C2, counterexample. The claim that every execution of signOut
ends with user, profile and session null fails when the awaited remote
sign-out call throws: control jumps to the catch block, the three
clearing calls are skipped, and the state is left unchanged and
nonnull. -/
theorem c2_counterexample :
    signOut RemoteResult.thrown cSignedInState = cSignedInState
    ∧ cSignedInState.user ≠ none
    ∧ cSignedInState.profile ≠ none
    ∧ cSignedInState.session ≠ none := by
  refine ⟨rfl, ?_, ?_, ?_⟩ <;> simp [cSignedInState]

/-- Claim C2, amended: for every execution of signOut in which the
remote call returns normally, with or without a reported error object,
the operation ends with user, profile and session null; the clearing is
not gated on remote success, only on the call not throwing. -/
theorem c2_signOut_clears_on_return (msg : String) (s : AuthState) :
    (signOut RemoteResult.ok s).user = none
    ∧ (signOut RemoteResult.ok s).profile = none
    ∧ (signOut RemoteResult.ok s).session = none
    ∧ (signOut (RemoteResult.errReturned msg) s).user = none
    ∧ (signOut (RemoteResult.errReturned msg) s).profile = none
    ∧ (signOut (RemoteResult.errReturned msg) s).session = none := by
  simp [signOut]

/-- Claim C2, witness at a concrete signed-in state and remote error. -/
theorem c2_witness :
    (signOut RemoteResult.ok cSignedInState).user = none
    ∧ (signOut RemoteResult.ok cSignedInState).profile = none
    ∧ (signOut RemoteResult.ok cSignedInState).session = none
    ∧ (signOut (RemoteResult.errReturned "network down") cSignedInState).user
        = none
    ∧ (signOut (RemoteResult.errReturned "network down")
        cSignedInState).profile = none
    ∧ (signOut (RemoteResult.errReturned "network down")
        cSignedInState).session = none :=
  c2_signOut_clears_on_return "network down" cSignedInState

/-- Claim C3: every run of the bootstrap path that ends in failure
(getSession error or exception) or in expiry of the 8-unit-time bound
leaves user, profile and session null, and every run, whatever its
outcome, ends with loading false. -/
theorem c3_boot_failure_clears (out : GetSessionOutcome)
    (fr : Option Profile) :
    ((out = GetSessionOutcome.timeout ∨ out = GetSessionOutcome.errResult
        ∨ out = GetSessionOutcome.thrown) →
      (initAuth out fr initState).user = none
      ∧ (initAuth out fr initState).profile = none
      ∧ (initAuth out fr initState).session = none)
    ∧ (initAuth out fr initState).loading = false := by
  constructor
  · rintro (rfl | rfl | rfl) <;> simp [initAuth, initState]
  · exact initAuth_loading out fr initState rfl

/-- Claim C3, witness at the timeout outcome. -/
theorem c3_witness :
    (initAuth GetSessionOutcome.timeout none initState).user = none
    ∧ (initAuth GetSessionOutcome.timeout none initState).profile = none
    ∧ (initAuth GetSessionOutcome.timeout none initState).session = none
    ∧ (initAuth GetSessionOutcome.timeout none initState).loading = false := by
  have h := c3_boot_failure_clears GetSessionOutcome.timeout none
  have h1 := h.1 (Or.inl rfl)
  exact ⟨h1.1, h1.2.1, h1.2.2, h.2⟩

/-- Claim C4: over one application lifetime, for every bootstrap
outcome and every sequence of non-bootstrap events before and after it,
the loading flag reads true from the initial state until the bootstrap
completes and false from then on, so it starts true, transitions from
true to false exactly once, and never transitions back to true. -/
theorem c4_loading_single_transition (pre post : List PostEv)
    (out : GetSessionOutcome) (fr : Option Profile) :
    (lifeStates pre out fr post).map AuthState.loading
      = List.replicate (pre.length + 1) true
        ++ List.replicate (post.length + 1) false
    ∧ countTF ((lifeStates pre out fr post).map AuthState.loading) = 1
    ∧ countFT ((lifeStates pre out fr post).map AuthState.loading) = 0 := by
  have hmap : (lifeStates pre out fr post).map AuthState.loading
      = List.replicate (pre.length + 1) true
        ++ List.replicate (post.length + 1) false := by
    have hb : (initAuth out fr (endOf initState pre)).loading = false :=
      initAuth_loading out fr (endOf initState pre)
        ((endOf_fields pre initState).2)
    rw [lifeStates, List.map_append, traceFrom_loading, traceFrom_loading, hb]
    rfl
  refine ⟨hmap, ?_, ?_⟩
  · rw [hmap]; exact countTF_true_false pre.length post.length
  · rw [hmap]; exact countFT_true_false pre.length post.length

/-- Claim C4, witness: a lifetime with one pre-bootstrap event, a
timeout bootstrap, and one later event. -/
theorem c4_witness :
    (lifeStates [PostEv.authChange "SIGNED_IN" (some cSess) (some cProfile)]
        GetSessionOutcome.timeout none
        [PostEv.signOutEv RemoteResult.ok]).map AuthState.loading
      = List.replicate
          ([PostEv.authChange "SIGNED_IN" (some cSess)
            (some cProfile)].length + 1) true
        ++ List.replicate ([PostEv.signOutEv RemoteResult.ok].length + 1)
            false
    ∧ countTF ((lifeStates
        [PostEv.authChange "SIGNED_IN" (some cSess) (some cProfile)]
        GetSessionOutcome.timeout none
        [PostEv.signOutEv RemoteResult.ok]).map AuthState.loading) = 1
    ∧ countFT ((lifeStates
        [PostEv.authChange "SIGNED_IN" (some cSess) (some cProfile)]
        GetSessionOutcome.timeout none
        [PostEv.signOutEv RemoteResult.ok]).map AuthState.loading) = 0 :=
  c4_loading_single_transition
    [PostEv.authChange "SIGNED_IN" (some cSess) (some cProfile)]
    [PostEv.signOutEv RemoteResult.ok] GetSessionOutcome.timeout none

/-- Claim C5: when the profiles lookup reports the row-not-found code
PGRST116, the authenticated user is available from getUser, and the
fallback insert succeeds, fetchUserProfile inserts exactly one row, that
row has role student and fields derived from the authenticated user:
the requested id, the user email or empty string, and the metadata full
name under the falsy or-else-null coercion of the source (a present
nonempty name is kept, a missing or empty name becomes null), and the
function returns that row. -/
theorem c5_profile_created_default (userId : String) (u : User) :
    fetchUserProfile userId (SelectOutcome.errCode "PGRST116") (some u) false
      = (some (defaultProfile userId u), [defaultProfile userId u])
    ∧ (defaultProfile userId u).role = Role.student
    ∧ (defaultProfile userId u).id = userId
    ∧ (defaultProfile userId u).email = u.email.getD ""
    ∧ (u.user_metadata_full_name = none →
        (defaultProfile userId u).full_name = none)
    ∧ (u.user_metadata_full_name = some "" →
        (defaultProfile userId u).full_name = none)
    ∧ (∀ s, u.user_metadata_full_name = some s → s ≠ "" →
        (defaultProfile userId u).full_name = some s) := by
  refine ⟨rfl, rfl, rfl, rfl, ?_, ?_, ?_⟩
  · intro h; simp [defaultProfile, h]
  · intro h; simp [defaultProfile, h]
  · intro s hs hne; simp [defaultProfile, hs, hne]

/-- An auth user whose metadata carries a nonempty full name. -/
def cUserNamed : User :=
  { id := "user-2"
    email := some "b@example.com"
    user_metadata_full_name := some "Ada Example" }

/-- An auth user whose metadata carries an empty full name. -/
def cUserEmptyName : User :=
  { id := "user-3"
    email := some "c@example.com"
    user_metadata_full_name := some "" }

/-- Claim C5, witness at concrete auth users exercising all three
metadata shapes: name missing, name present and nonempty, name empty. -/
theorem c5_witness :
    fetchUserProfile "user-1" (SelectOutcome.errCode "PGRST116") (some cUser)
        false
      = (some (defaultProfile "user-1" cUser),
         [defaultProfile "user-1" cUser])
    ∧ (defaultProfile "user-1" cUser).role = Role.student
    ∧ (defaultProfile "user-1" cUser).full_name = none
    ∧ (defaultProfile "user-2" cUserNamed).full_name = some "Ada Example"
    ∧ (defaultProfile "user-3" cUserEmptyName).full_name = none := by
  have h1 := c5_profile_created_default "user-1" cUser
  have h2 := c5_profile_created_default "user-2" cUserNamed
  have h3 := c5_profile_created_default "user-3" cUserEmptyName
  exact ⟨h1.1, h1.2.1, h1.2.2.2.2.1 rfl,
    h2.2.2.2.2.2.2 "Ada Example" rfl (by decide),
    h3.2.2.2.2.2.1 rfl⟩

/-- Claim C6: when the backend is unreachable the signInWithPassword
error message mentions fetch and signIn maps it to the fixed transport
error, while a credential rejection, whose message does not mention
fetch, is passed through unchanged; the two results are distinct. -/
theorem c6_transport_distinct (msgT msgC : String)
    (hT : (strIncludes msgT "Failed to fetch" || strIncludes msgT "fetch")
      = true)
    (hC : (strIncludes msgC "Failed to fetch" || strIncludes msgC "fetch")
      = false) :
    signIn true (SignInResponse.apiError msgT)
      = SignInResult.errTransport
          "Unable to connect to the database. Please check your internet connection and try again."
    ∧ signIn true (SignInResponse.apiError msgC) = SignInResult.errApi msgC
    ∧ signIn true (SignInResponse.apiError msgT)
      ≠ signIn true (SignInResponse.apiError msgC) := by
  have h1 : signIn true (SignInResponse.apiError msgT)
      = SignInResult.errTransport
          "Unable to connect to the database. Please check your internet connection and try again." := by
    simp [signIn, hT]
  have h2 : signIn true (SignInResponse.apiError msgC)
      = SignInResult.errApi msgC := by
    simp [signIn, hC]
  refine ⟨h1, h2, ?_⟩
  rw [h1, h2]
  intro hEq
  exact SignInResult.noConfusion hEq

/-- Claim C6, witness: the standard unreachable-backend message against
the standard credential-rejection message. -/
theorem c6_witness :
    signIn true (SignInResponse.apiError "Failed to fetch")
      = SignInResult.errTransport
          "Unable to connect to the database. Please check your internet connection and try again."
    ∧ signIn true (SignInResponse.apiError "Invalid login credentials")
      = SignInResult.errApi "Invalid login credentials"
    ∧ signIn true (SignInResponse.apiError "Failed to fetch")
      ≠ signIn true (SignInResponse.apiError "Invalid login credentials") :=
  c6_transport_distinct "Failed to fetch" "Invalid login credentials"
    (by decide) (by decide)

/-- Claim C7: when account creation returns a user and the subsequent
profile insert reports an error, signUp returns that specific insert
error to the caller, and the call sequence it issued contains no
account-deletion call, so the created account is not rolled back. -/
theorem c7_signup_insert_error_surfaced (email password fullName : String)
    (role : Role) (u : User) (msg : String) :
    (signUp email password fullName role (SignUpResponse.okUser u)
        (some msg)).1
      = SignUpResult.errProfileInsert msg
    ∧ BackendCall.accountDeleteCall ∉
        (signUp email password fullName role (SignUpResponse.okUser u)
          (some msg)).2 := by
  constructor
  · rfl
  · simp [signUp]

/-- Claim C7, witness at concrete sign-up data and insert error. -/
theorem c7_witness :
    (signUp "a@example.com" "pw" "Ada Example" Role.student
        (SignUpResponse.okUser cUser) (some "insert failed")).1
      = SignUpResult.errProfileInsert "insert failed"
    ∧ BackendCall.accountDeleteCall ∉
        (signUp "a@example.com" "pw" "Ada Example" Role.student
          (SignUpResponse.okUser cUser) (some "insert failed")).2 :=
  c7_signup_insert_error_surfaced "a@example.com" "pw" "Ada Example"
    Role.student cUser "insert failed"

/-- Claim C8: with loading over, a user present, and a student profile
present, a route requiring admin redirects to the dashboard route, the
role-appropriate default, and not to the login route. -/
theorem c8_route_guard_admin_denied (requireStudent : Bool) (u : User)
    (p : Profile) (h : p.role = Role.student) :
    ProtectedRoute true requireStudent false (some u) (some p)
      = RouteRender.navigate "/dashboard"
    ∧ ProtectedRoute true requireStudent false (some u) (some p)
      ≠ RouteRender.navigate "/login" := by
  have h1 : ProtectedRoute true requireStudent false (some u) (some p)
      = RouteRender.navigate "/dashboard" := by
    simp [ProtectedRoute, h]
  refine ⟨h1, ?_⟩
  rw [h1]
  intro hEq
  have h2 : "/dashboard" = "/login" := by injection hEq
  exact absurd h2 (by decide)

/-- Claim C8, witness at a concrete user and student profile. -/
theorem c8_witness :
    ProtectedRoute true false false (some cUser) (some cProfile)
      = RouteRender.navigate "/dashboard"
    ∧ ProtectedRoute true false false (some cUser) (some cProfile)
      ≠ RouteRender.navigate "/login" :=
  c8_route_guard_admin_denied false cUser cProfile rfl

/-- Claim C9: when configuration is absent the banner shows the
configuration error whatever the state; when configuration is present
the offline banner is never shown on initial mount, even if the browser
starts offline, it is shown after any event sequence ending in an
offline transition, and it is cleared by the online event that follows
any event sequence. -/
theorem c9_connectivity_banner (navOnLine : Bool) (evs : List ConnEvent)
    (s : ConnState) :
    connRender false s = Banner.configError
    ∧ connRender true (connInit navOnLine) ≠ Banner.offlineWarning
    ∧ connRender true
        (runConnEvents (evs ++ [ConnEvent.online]) (connInit navOnLine))
        = Banner.noBanner
    ∧ connRender true
        (runConnEvents (evs ++ [ConnEvent.offline]) (connInit navOnLine))
        = Banner.offlineWarning := by
  refine ⟨rfl, ?_, ?_, ?_⟩
  · simp [connRender, connInit]
  · simp [runConnEvents, List.foldl_append, connRender, handleConnEvent]
  · simp [runConnEvents, List.foldl_append, connRender, handleConnEvent]

/-- Claim C9, witness: starting offline, then an offline transition
followed by an online transition. -/
theorem c9_witness :
    connRender false (connInit false) = Banner.configError
    ∧ connRender true (connInit false) ≠ Banner.offlineWarning
    ∧ connRender true
        (runConnEvents ([ConnEvent.offline] ++ [ConnEvent.online])
          (connInit false))
        = Banner.noBanner
    ∧ connRender true
        (runConnEvents ([ConnEvent.online] ++ [ConnEvent.offline])
          (connInit false))
        = Banner.offlineWarning := by
  have h1 := c9_connectivity_banner false [ConnEvent.offline]
    (connInit false)
  have h2 := c9_connectivity_banner false [ConnEvent.online]
    (connInit false)
  exact ⟨h1.1, h1.2.1, h1.2.2.1, h2.2.2.2⟩

/-- Claim C10: the derived role flags exposed to the UI layer are never
both true, are both false when the profile is null, and hold exactly
when the profile role is admin, respectively student. -/
theorem c10_role_flags (po : Option Profile) (p : Profile) :
    (isAdmin po && isStudent po) = false
    ∧ isAdmin (none : Option Profile) = false
    ∧ isStudent (none : Option Profile) = false
    ∧ (isAdmin (some p) = true ↔ p.role = Role.admin)
    ∧ (isStudent (some p) = true ↔ p.role = Role.student) := by
  refine ⟨?_, rfl, rfl, ?_, ?_⟩
  · cases po with
    | none => rfl
    | some q => cases hq : q.role <;> simp [isAdmin, isStudent, hq]
  · simp [isAdmin]
  · simp [isStudent]

/-- Claim C10, witness at a concrete student profile. -/
theorem c10_witness :
    (isAdmin (some cProfile) && isStudent (some cProfile)) = false
    ∧ isAdmin (none : Option Profile) = false
    ∧ isStudent (none : Option Profile) = false
    ∧ (isAdmin (some cProfile) = true ↔ cProfile.role = Role.admin)
    ∧ (isStudent (some cProfile) = true ↔ cProfile.role = Role.student) :=
  c10_role_flags (some cProfile) cProfile

end Upsc
